import Mathlib

/-!
Verification of the relay-protocol driver of `src/main.py` (class `Mixnet` and the
`/mix` HTTP handler) against its natural-language specification.

The Python source is shallowly embedded as follows.

* Python exceptions are modelled by the inductive `PyExc`; a function that can raise
  returns `Except PyExc α`, and a value `Except.error e` models an exception `e`
  propagating out of (being raised past) the function.
* Python dicts keyed by node id are modelled as association lists; subscripting
  (`d[k]`, which raises `KeyError`) is `dict_get`.
* The cryptographic primitives of the external `sphinxmix` library
  (`create_forward_message`, `sphinx_process`, `PFdecode`, `receive_forward`) are out
  of scope per the spec (section 6); they are abstracted as the fields of a `Sphinx`
  structure over opaque header/delta/info/mac types, and theorems that need their
  round-trip behaviour take it as an explicit hypothesis (`Peels`).
* The `while True:` relay loop of `Mixnet._process_message` (line 115) is embedded
  with an explicit fuel argument: `process_loop ... fuel ... = none` means the loop
  has not reached any terminal state (return or raise) within `fuel` iterations, so
  `(∀ fuel, ... = none)` states that the loop never terminates.
* The random draws of the simulation are passed in explicitly: `gensecret` gives the
  secret scalar drawn for each node id, `expon` is the fixed group exponentiation
  deriving the public key, and `shuffled` is the uniformly random ordering of the
  registry identifiers that the selection primitive draws.
-/

namespace Pgmix

/-- Python exception values, as raised by the embedded code. `keyError k` is the
`KeyError` raised by a failed dict subscript (its `str` is just the key),
`exception msg` is a bare `Exception(msg)` as built by the catch-and-rewrap blocks
of `main.py` (lines 94-95 and 130-131). -/
inductive PyExc where
  | keyError (key : Nat)
  | indexError (msg : String)
  | attributeError (msg : String)
  | typeError (msg : String)
  | exception (msg : String)
deriving DecidableEq

/-- The `str(e)` of an exception, as interpolated by the f-strings of the rewrap
blocks. For `KeyError` Python renders the offending key. -/
def excMsg : PyExc → String
  | .keyError k => toString k
  | .indexError m => m
  | .attributeError m => m
  | .typeError m => m
  | .exception m => m

/-- The rewrap performed by the `except` clause of `Mixnet._process_message`
(line 131): `raise Exception(f"Error processing message: \x7be\x7d")`. -/
def procWrap (e : PyExc) : PyExc :=
  .exception ("Error processing message: " ++ excMsg e)

/-- The rewrap performed by the `except` clause of `Mixnet.send_message`
(line 95): `raise Exception(f"Error sending message: \x7be\x7d")`. -/
def sendWrap (e : PyExc) : PyExc :=
  .exception ("Error sending message: " ++ excMsg e)

/-- Python `s.encode()` on a value that is either a `str` or `None` (the handler
passes `data.get('message')`, which may be `None`). On `None` it raises
`AttributeError`; byte strings are identified with their decoded text. -/
def encode : Option String → Except PyExc String
  | some s => .ok s
  | none => .error (.attributeError "NoneType object has no attribute encode")

/-- A `pki_entry(id, x, y)` record of sphinxmix: node id, private key `x`
(`None` in the public registry), public key `y`. Keys are abstract scalars and
group elements, both represented by `Nat`. -/
structure PkiEntry where
  id : Nat
  x : Option Nat
  y : Nat
deriving DecidableEq

/-- The two registries held by a `Mixnet` object (lines 33-34): `pkiPriv` maps each
node id to its full entry (private key included), `pkiPub` maps it to the public
entry. Python dicts are embedded as insertion-ordered association lists. -/
structure Mixnet where
  pkiPriv : List (Nat × PkiEntry)
  pkiPub : List (Nat × PkiEntry)
deriving DecidableEq

/-- Python dict subscription `d[k]`: the value at the first matching key, or a
raised `KeyError k` when the key is absent. -/
def dict_get (d : List (Nat × PkiEntry)) (k : Nat) : Except PyExc PkiEntry :=
  match d with
  | [] => .error (.keyError k)
  | (k2, v) :: rest => if k = k2 then .ok v else dict_get rest k

/-- Python `l[0]` on a list, raising `IndexError` when empty (as
`use_nodes[0]` on line 113 would on an empty route). -/
def list_head (l : List Nat) : Except PyExc Nat :=
  match l with
  | [] => .error (.indexError "list index out of range")
  | a :: _ => .ok a

/-- `Mixnet._initialize_nodes` (lines 49-55): for each `nid` in `range(num_nodes)`
draw a secret key, derive the public key, and store
`pkiPriv[nid] = pki_entry(nid, secret_key, public_key)` and
`pkiPub[nid] = pki_entry(nid, None, public_key)`. The group operations
`gensecret` (the random draw for each id) and `expon` are abstract. -/
def initialize_nodes (num_nodes : Nat) (gensecret : Nat → Nat) (expon : Nat → Nat) : Mixnet :=
  ⟨(List.range num_nodes).map (fun nid => (nid, ⟨nid, some (gensecret nid), expon (gensecret nid)⟩)),
   (List.range num_nodes).map (fun nid => (nid, ⟨nid, none, expon (gensecret nid)⟩))⟩

/-- The default of the `num_nodes` parameter of `Mixnet.__init__` (line 24). -/
def Mixnet_default_num_nodes : Nat := 10

/-- `Mixnet()` with the default node count, as constructed by the `/mix` handler
(line 157). -/
def Mixnet_new (gensecret expon : Nat → Nat) : Mixnet :=
  initialize_nodes Mixnet_default_num_nodes gensecret expon

/-- `self.pkiPub.keys()` (line 75): the identifiers of the public registry. -/
def pkiPub_keys (m : Mixnet) : List Nat :=
  m.pkiPub.map (fun p => p.1)

/-- A routing instruction decoded from one peeled layer: sphinxmix `PFdecode`
yields a tuple starting with `Relay_flag` (with the next node id), `Dest_flag`,
or `Surb_flag`; the driver's `if/elif` on lines 121-125 tests only the first two. -/
inductive Routing where
  | relay (addr : Nat)
  | toDest
  | surb
deriving DecidableEq

/-- sphinxmix `Nenc`: encodes a node id as the relay routing entry `(Relay_flag, id)`
for packet construction (line 80). -/
def Nenc (addr : Nat) : Routing := .relay addr

/-- Modelled from the spec: the route-selection primitive `rand_subset(lst, nu)` of
the external sphinxmix library, called on line 75. Per the spec (section 4.2) the
selection is uniform without replacement: the library tags every element of `lst`
with fresh random bytes, sorts by the tags, and returns the first `nu` elements of
the resulting ordering. That random ordering of the registry identifiers is passed
here explicitly as `shuffled`; the primitive is then the `nu`-element prefix. Note
the library performs no size check: when `nu` exceeds the number of identifiers the
prefix is silently the whole shuffled list. -/
def rand_subset (shuffled : List Nat) (nu : Nat) : List Nat :=
  shuffled.take nu

/-- The list comprehension `[self.pkiPub[n].y for n in use_nodes]` (line 81):
the public key of every route member, raising `KeyError` on an unknown id. -/
def keys_of (pub : List (Nat × PkiEntry)) : List Nat → Except PyExc (List Nat)
  | [] => .ok []
  | n2 :: rest =>
    match dict_get pub n2 with
    | .error e => .error e
    | .ok e2 =>
      match keys_of pub rest with
      | .error e => .error e
      | .ok ys => .ok (e2.y :: ys)

/-- The external cryptographic primitives collaborator (spec section 6), abstracted
over the opaque types of headers `H`, payloads `D`, decoded info blobs `I` and mac
keys `M`. `sphinx_process x header delta` returns the decoded info, the
transformed `(header, delta)` pair and the mac key (the unused `tag` component of
the Python return tuple is omitted); `PFdecode` classifies the info blob;
`receive_forward` opens the final payload into `(destination, message)`. -/
structure Sphinx (H D I M : Type) where
  create_forward_message : List Routing → List Nat → String → String → Except PyExc (H × D)
  sphinx_process : Option Nat → H → D → Except PyExc (I × (H × D) × M)
  PFdecode : I → Except PyExc Routing
  receive_forward : M → D → Except PyExc (String × String)

/-- The outcome of a delivered session: the destination label printed on line 128
and the message text returned on line 129 (both `.decode()`d). -/
structure ProcessOutcome where
  dest : String
  received_message : String
deriving DecidableEq

/-- The `while True:` relay loop of `Mixnet._process_message` (lines 115-129),
with an explicit iteration budget `fuel`. `none` means the loop has not reached a
terminal state (a `return` or a raised exception) within `fuel` iterations; since
the Python loop has no bound of its own, `(∀ fuel, ... = none)` is exactly
non-termination. Each iteration processes the packet at the current key `x`,
decodes the routing instruction, and on `Relay` rebinds `x` to
`self.pkiPriv[addr].x`; on a flag that is neither `Relay` nor `Dest` the loop
continues with the reassigned header and delta and the same key. -/
def process_loop {H D I M : Type} (S : Sphinx H D I M) (pkiPriv : List (Nat × PkiEntry)) :
    Nat → Option Nat → H → D → Option (Except PyExc ProcessOutcome)
  | 0, _, _, _ => none
  | fuel + 1, x, header, delta =>
    match S.sphinx_process x header delta with
    | .error e => some (.error e)
    | .ok (info, (header2, delta2), mac_key) =>
      match S.PFdecode info with
      | .error e => some (.error e)
      | .ok (.relay addr) =>
        match dict_get pkiPriv addr with
        | .error e => some (.error e)
        | .ok entry => process_loop S pkiPriv fuel entry.x header2 delta2
      | .ok .toDest =>
        match S.receive_forward mac_key delta2 with
        | .error e => some (.error e)
        | .ok (dest, received_message) => some (.ok ⟨dest, received_message⟩)
      | .ok .surb => process_loop S pkiPriv fuel x header2 delta2

/-- The body of the `try` block of `Mixnet._process_message` (lines 113-129):
look up the first node's private key (`self.pkiPriv[use_nodes[0]].x`, line 113)
and run the relay loop. -/
def process_try {H D I M : Type} (S : Sphinx H D I M) (m : Mixnet)
    (header : H) (delta : D) (use_nodes : List Nat) (fuel : Nat) :
    Option (Except PyExc ProcessOutcome) :=
  match list_head use_nodes with
  | .error e => some (.error e)
  | .ok n0 =>
    match dict_get m.pkiPriv n0 with
    | .error e => some (.error e)
    | .ok entry => process_loop S m.pkiPriv fuel entry.x header delta

/-- `Mixnet._process_message` (lines 97-131): the `try` body with every raised
exception rewrapped by the `except` clause into
`Exception("Error processing message: ...")`. -/
def process_message {H D I M : Type} (S : Sphinx H D I M) (m : Mixnet)
    (header : H) (delta : D) (use_nodes : List Nat) (fuel : Nat) :
    Option (Except PyExc ProcessOutcome) :=
  match process_try S m header delta use_nodes fuel with
  | none => none
  | some (.ok r) => some (.ok r)
  | some (.error e) => some (.error (procWrap e))

/-- The route-selection and packet-construction inputs computed by
`Mixnet.send_message` before it invokes the primitives (lines 74-88): the
`Nenc`-encoded route, the route members' public keys read from `pkiPub`, and the
encoded destination and message arguments. This stage reads no private key. -/
def sphinx_inputs (m : Mixnet) (shuffled : List Nat) (message dest : Option String) :
    Except PyExc (List Routing × List Nat × String × String) :=
  match keys_of m.pkiPub (rand_subset shuffled 5) with
  | .error e => .error e
  | .ok keys_nodes =>
    match encode dest with
    | .error e => .error e
    | .ok dst =>
      match encode message with
      | .error e => .error e
      | .ok msg2 => .ok ((rand_subset shuffled 5).map Nenc, keys_nodes, dst, msg2)

/-- The body of the `try` block of `Mixnet.send_message` (lines 74-93): select
`rand_subset(self.pkiPub.keys(), 5)` as the route, build the construction inputs,
create the forward message, and process it through the mixnet. -/
def send_try {H D I M : Type} (S : Sphinx H D I M) (m : Mixnet) (shuffled : List Nat)
    (message dest : Option String) (fuel : Nat) :
    Option (Except PyExc ProcessOutcome) :=
  let use_nodes := rand_subset shuffled 5
  match sphinx_inputs m shuffled message dest with
  | .error e => some (.error e)
  | .ok (nodes_routing, keys_nodes, dst, msg2) =>
    match S.create_forward_message nodes_routing keys_nodes dst msg2 with
    | .error e => some (.error e)
    | .ok (header, delta) => process_message S m header delta use_nodes fuel

/-- `Mixnet.send_message` (lines 59-95): the `try` body with every raised
exception rewrapped by the `except` clause into
`Exception("Error sending message: ...")` and re-raised to the caller. -/
def send_message {H D I M : Type} (S : Sphinx H D I M) (m : Mixnet) (shuffled : List Nat)
    (message dest : Option String) (fuel : Nat) :
    Option (Except PyExc ProcessOutcome) :=
  match send_try S m shuffled message dest fuel with
  | none => none
  | some (.ok r) => some (.ok r)
  | some (.error e) => some (.error (sendWrap e))

/-- The round-trip contract of the primitives on a chosen route (spec section 8):
starting at key `x` with packet `(h, d)`, each peel decodes to `Relay` at the next
route member — whose private entry the driver then looks up in `pkiPriv` — and the
peel after the last member decodes to `Dest` and opens to `(dl, m)`. -/
inductive Peels {H D I M : Type} (S : Sphinx H D I M) (pkiPriv : List (Nat × PkiEntry)) :
    Option Nat → List Nat → H → D → String → String → Prop where
  | deliver {x : Option Nat} {h : H} {d : D} {i : I} {h2 : H} {d2 : D} {mac : M}
      {dl m : String}
      (hp : S.sphinx_process x h d = .ok (i, (h2, d2), mac))
      (hd : S.PFdecode i = .ok .toDest)
      (hr : S.receive_forward mac d2 = .ok (dl, m)) :
      Peels S pkiPriv x [] h d dl m
  | step {x : Option Nat} {h : H} {d : D} {i : I} {h2 : H} {d2 : D} {mac : M}
      {next : Nat} {rest : List Nat} {e : PkiEntry} {dl m : String}
      (hp : S.sphinx_process x h d = .ok (i, (h2, d2), mac))
      (hd : S.PFdecode i = .ok (.relay next))
      (hl : dict_get pkiPriv next = .ok e)
      (hrec : Peels S pkiPriv e.x rest h2 d2 dl m) :
      Peels S pkiPriv x (next :: rest) h d dl m

/-- A Python value placed into a JSON response body: the handler puts either a
string or (in its `except` clause, line 170) a raw exception object. -/
inductive JVal where
  | jStr (s : String)
  | jExcObj (e : PyExc)
deriving DecidableEq

/-- Modelled from the spec: JSON rendering of a single value by the web framework
collaborator (Python `json.dumps`). A string renders quoted; an exception object
is not JSON serializable and raises `TypeError`. -/
def json_dumps_val : JVal → Except PyExc String
  | .jStr s => .ok ("\"" ++ s ++ "\"")
  | .jExcObj _ => .error (.typeError "Object of type Exception is not JSON serializable")

/-- Modelled from the spec: JSON rendering of the key-value pairs of a response
dict, failing as soon as one value fails to serialize. -/
def json_dumps_pairs : List (String × JVal) → Except PyExc String
  | [] => .ok ""
  | (k, v) :: rest =>
    match json_dumps_val v with
    | .error e => .error e
    | .ok sv =>
      match json_dumps_pairs rest with
      | .error e => .error e
      | .ok srest => .ok ("\"" ++ k ++ "\": " ++ sv ++ srest)

/-- An HTTP response: status code and rendered body. -/
structure HttpResponse where
  status_code : Nat
  body : String
deriving DecidableEq

/-- Modelled from the spec: `JSONResponse(content, status_code)` of the web
framework collaborator renders its content to JSON at construction time, raising
the serialization error (`TypeError` for an exception object) inside the caller. -/
def JSONResponse (content : List (String × JVal)) (status_code : Nat) :
    Except PyExc HttpResponse :=
  match json_dumps_pairs content with
  | .error e => .error e
  | .ok s => .ok ⟨status_code, "\x7b" ++ s ++ "\x7d"⟩

/-- The body of the `try` block of the `/mix` handler (lines 153-168): parse the
request JSON, read `data.get('message')` (which is `None` when absent), construct
a brand-new `Mixnet()` for this request with this request's own key randomness
`g`/`ex` and route randomness `shuffled`, send through it to the fixed label
`"destination_node"`, and answer 200 with the received text, or 200 with a
failure indicator when the received text is falsy (empty). -/
def mix_try {H D I M : Type} (S : Sphinx H D I M) (g ex : Nat → Nat) (shuffled : List Nat)
    (request_json : Except PyExc (List (String × Option String))) (fuel : Nat) :
    Option (Except PyExc HttpResponse) :=
  match request_json with
  | .error e => some (.error e)
  | .ok data =>
    let message : Option String :=
      match data.lookup "message" with
      | some v => v
      | none => none
    let mixnet := Mixnet_new g ex
    let destination := "destination_node"
    match send_message S mixnet shuffled message (some destination) fuel with
    | none => none
    | some (.error e) => some (.error e)
    | some (.ok out) =>
      if out.received_message = "" then
        some (JSONResponse [("data", .jStr "Failed to mix message!")] 200)
      else
        some (JSONResponse [("data", .jStr out.received_message)] 200)

/-- The `/mix` handler `mix_incoming_messages` (lines 151-170): the `try` body,
with any raised exception `e` answered by the `except` clause as
`JSONResponse(\x7b"data": e\x7d, status_code=200)` — whose own construction may
itself raise, uncaught, out of the handler. -/
def mix_incoming_messages {H D I M : Type} (S : Sphinx H D I M) (g ex : Nat → Nat)
    (shuffled : List Nat) (request_json : Except PyExc (List (String × Option String)))
    (fuel : Nat) : Option (Except PyExc HttpResponse) :=
  match mix_try S g ex shuffled request_json fuel with
  | none => none
  | some (.ok r) => some (.ok r)
  | some (.error e) => some (JSONResponse [("data", JVal.jExcObj e)] 200)

/-- Modelled from the spec: the web framework hosting the endpoint (spec
section 6) forwards a handler's response as is and turns an exception escaping
the handler into an HTTP 500 internal server error. -/
def serve : Option (Except PyExc HttpResponse) → Option HttpResponse
  | none => none
  | some (.ok r) => some r
  | some (.error _) => some ⟨500, "Internal Server Error"⟩

/-- The node ids named by a list of routing entries (used to read a route back out
of its `Nenc` encoding in the symbolic primitives below). -/
def addrsOf (l : List Routing) : List Nat :=
  l.filterMap (fun r => match r with | .relay a => some a | _ => none)

/-- The routing instruction a symbolic packet header decodes to: relay to the head
of the remaining route, or deliver when no hop remains. -/
def routingOf : List Nat → Routing
  | [] => .toDest
  | n2 :: _ => .relay n2

/-- A symbolic instance of the primitives satisfying the round-trip contract: a
header is the list of remaining hops, a payload is the `(destination, message)`
pair carried unchanged, peeling drops one hop, and opening returns the pair. -/
def symS : Sphinx (List Nat) (String × String) Routing Unit :=
  ⟨fun nr _keys dst msg => .ok ((addrsOf nr).drop 1, (dst, msg)),
   fun _x h d => .ok (routingOf h, (h.drop 1, d), ()),
   fun i => .ok i,
   fun _mac d => .ok (d.1, d.2)⟩

/-- An adversarial instance of the primitives: every peel decodes to a `Relay`
back to node 0, as a malformed or malicious packet would keep re-instructing
relay (spec section 4.4). -/
def advS : Sphinx Unit Unit Unit Unit :=
  ⟨fun _ _ _ _ => .ok ((), ()),
   fun _ _ _ => .ok ((), ((), ()), ()),
   fun _ => .ok (.relay 0),
   fun _ _ => .ok ("", "")⟩

/-- An instance of the primitives whose first peel decodes to a `Relay` naming
node id 99, absent from any small registry. -/
def unreachS : Sphinx Unit Unit Unit Unit :=
  ⟨fun _ _ _ _ => .ok ((), ()),
   fun _ _ _ => .ok ((), ((), ()), ()),
   fun _ => .ok (.relay 99),
   fun _ _ => .ok ("", "")⟩

/-- An instance of the primitives whose peel raises `Exception("99")`, a
processing failure unrelated to any unknown node id. -/
def failS : Sphinx Unit Unit Unit Unit :=
  ⟨fun _ _ _ _ => .ok ((), ()),
   fun _ _ _ => .error (.exception "99"),
   fun _ => .ok (.relay 0),
   fun _ _ => .ok ("", "")⟩

theorem dict_get_append (l1 l2 : List (Nat × PkiEntry)) (k : Nat) :
    dict_get (l1 ++ l2) k =
      match dict_get l1 k with
      | .ok v => .ok v
      | .error _ => dict_get l2 k := by
  induction l1 with
  | nil => rfl
  | cons p t ih =>
    obtain ⟨k2, v⟩ := p
    by_cases hk : k = k2 <;> simp [dict_get, hk, ih]

theorem dict_get_range_map (f : Nat → PkiEntry) (nn k : Nat) :
    dict_get ((List.range nn).map (fun j => (j, f j))) k =
      if k < nn then .ok (f k) else .error (.keyError k) := by
  induction nn with
  | zero => simp [dict_get]
  | succ n ih =>
    rw [show List.range (n + 1) = List.range n ++ [n] by simp [List.range_succ]]
    rw [List.map_append, dict_get_append, ih]
    by_cases h1 : k < n
    · simp [h1, Nat.lt_succ_of_lt h1]
    · by_cases h2 : k = n
      · subst h2
        simp [h1, dict_get, Nat.lt_succ_self]
      · have : ¬ k < n + 1 := by omega
        simp [h1, h2, this, dict_get]

theorem dict_get_initialize_priv (nn : Nat) (g ex : Nat → Nat) (k : Nat) :
    dict_get (initialize_nodes nn g ex).pkiPriv k =
      if k < nn then .ok ⟨k, some (g k), ex (g k)⟩ else .error (.keyError k) :=
  dict_get_range_map (fun j => ⟨j, some (g j), ex (g j)⟩) nn k

theorem dict_get_initialize_pub (nn : Nat) (g ex : Nat → Nat) (k : Nat) :
    dict_get (initialize_nodes nn g ex).pkiPub k =
      if k < nn then .ok ⟨k, none, ex (g k)⟩ else .error (.keyError k) :=
  dict_get_range_map (fun j => ⟨j, none, ex (g j)⟩) nn k

theorem pkiPub_keys_of_registry (nn : Nat) (g ex : Nat → Nat) :
    pkiPub_keys (initialize_nodes nn g ex) = List.range nn := by
  unfold pkiPub_keys initialize_nodes
  rw [List.map_map]
  exact List.map_id' (List.range nn)

theorem keys_of_initialize (nn : Nat) (g ex : Nat → Nat) :
    ∀ (l : List Nat), (∀ i ∈ l, i < nn) →
      keys_of (initialize_nodes nn g ex).pkiPub l = .ok (l.map (fun i => ex (g i))) := by
  intro l
  induction l with
  | nil => intro _; rfl
  | cons a t ih =>
    intro hmem
    have ha : a < nn := hmem a (by simp)
    have ht : keys_of (initialize_nodes nn g ex).pkiPub t = .ok (t.map (fun i => ex (g i))) :=
      ih (fun i hi => hmem i (by simp [hi]))
    simp [keys_of, dict_get_initialize_pub, ha, ht]

theorem process_loop_peels {H D I M : Type} {S : Sphinx H D I M}
    {priv : List (Nat × PkiEntry)} {x : Option Nat} {route : List Nat}
    {h : H} {d : D} {dl m : String}
    (hp : Peels S priv x route h d dl m) :
    ∀ fuel, route.length + 1 ≤ fuel →
      process_loop S priv fuel x h d = some (.ok ⟨dl, m⟩) := by
  induction hp with
  | deliver h1 h2 h3 =>
    intro fuel hfuel
    cases fuel with
    | zero => simp at hfuel
    | succ f => simp [process_loop, h1, h2, h3]
  | step h1 h2 h3 _ ih =>
    intro fuel hfuel
    cases fuel with
    | zero => simp at hfuel
    | succ f =>
      simp only [List.length_cons] at hfuel
      simp [process_loop, h1, h2, h3]
      exact ih f (by omega)

/-- Claim C2: against the actual code of `_process_message`, the relay driver has
no hop bound at all. With the default ten-node registry and primitives whose
every peel decodes to a `Relay` instruction (a malicious packet re-instructing
relay indefinitely), the `while True:` loop of lines 115-129 reaches no terminal
state within any number of iterations whatsoever — it neither delivers nor fails
with any error (the code defines no `RoutingLoopError`), contradicting the
claimed bound of route length + 1 hops. -/
theorem C2_relay_loop_unbounded :
    ∀ (fuel : Nat) (x : Option Nat),
      process_loop advS (Mixnet_new id id).pkiPriv fuel x () () = none := by
  intro fuel
  induction fuel with
  | zero => intro x; rfl
  | succ f ih =>
    intro x
    have hl : dict_get (Mixnet_new id id).pkiPriv 0 = .ok ⟨0, some 0, 0⟩ := rfl
    simp [process_loop, advS, hl]
    exact ih (some 0)

/-- Claim C4 (counterexample): the failure on a `Relay` naming an unregistered
node id is not distinguishable by the caller from other error kinds. Against a
three-node registry, a peel that relays to the unknown id 99 (`unreachS`) and a
peel that raises a plain `Exception("99")` (`failS`) make `_process_message`
produce the very same exception value — a bare
`Exception("Error processing message: 99")` — so no typed `UnreachableNodeError`
exists to tell the two causes apart. -/
theorem C4_indistinguishable_counterexample :
    process_message unreachS (initialize_nodes 3 id id) () () [0] 5
      = some (.error (.exception "Error processing message: 99"))
    ∧ process_message failS (initialize_nodes 3 id id) () () [0] 5
      = some (.error (.exception "Error processing message: 99")) := by
  constructor <;> rfl

/-- Claim C4 (amended): whenever a peel at the first hop decodes to a `Relay`
naming a node id outside the registry, the relay driver does terminate the
session with a failure, but that failure is the `KeyError` of the private-key
lookup rewrapped into a generic `Exception("Error processing message: <id>")`,
carrying no dedicated error type. -/
theorem C4_unknown_hop_generic_failure {H D I M : Type} (S : Sphinx H D I M)
    (nn : Nat) (g ex : Nat → Nat) (header : H) (delta : D)
    (n0 addr : Nat) (tail : List Nat) (fuel : Nat)
    {i : I} {h2 : H} {d2 : D} {mac : M}
    (hn0 : n0 < nn)
    (haddr : ¬ addr < nn)
    (hp : S.sphinx_process (some (g n0)) header delta = .ok (i, (h2, d2), mac))
    (hd : S.PFdecode i = .ok (.relay addr))
    (hfuel : 1 ≤ fuel) :
    process_message S (initialize_nodes nn g ex) header delta (n0 :: tail) fuel
      = some (.error (.exception ("Error processing message: " ++ toString addr))) := by
  cases fuel with
  | zero => simp at hfuel
  | succ f =>
    have hx : dict_get (initialize_nodes nn g ex).pkiPriv n0
        = .ok ⟨n0, some (g n0), ex (g n0)⟩ := by
      rw [dict_get_initialize_priv]; simp [hn0]
    have ha : dict_get (initialize_nodes nn g ex).pkiPriv addr = .error (.keyError addr) := by
      rw [dict_get_initialize_priv]; simp [haddr]
    simp [process_message, process_try, list_head, hx, process_loop, hp, hd, ha,
      procWrap, excMsg]

/-- Claim C4 (witness for the amended theorem): the three-node registry with the
relay-to-99 primitives instantiates it. -/
theorem C4_unknown_hop_generic_failure_witness :
    process_message unreachS (initialize_nodes 3 id id) () () [0] 1
      = some (.error (.exception ("Error processing message: " ++ toString 99))) :=
  C4_unknown_hop_generic_failure unreachS 3 id id () () 0 99 [] 1
    (by decide) (by decide) rfl rfl (by decide)

/-- Claim C3 (counterexample): a per-send failure is not captured into any typed
result — it is raised past `send_message` to the caller. Concretely, sending a
`None` message (as the handler does when the request body has no `message`
field) makes line 88's `message.encode()` raise `AttributeError`, and
`send_message` re-raises it as a bare wrapped `Exception`; the `.error` outcome
below is precisely an exception crossing the send boundary. -/
theorem C3_send_raises_counterexample :
    send_message symS (Mixnet_new id id) [0, 1, 2, 3, 4, 5, 6, 7, 8, 9]
        none (some "destination_node") 3
      = some (.error (.exception
          "Error sending message: NoneType object has no attribute encode")) := by
  rfl

/-- Claim C3 (amended): every failing send raises; the exception that crosses the
`send_message` boundary is always the bare rewrap
`Exception("Error sending message: ...")` produced by line 95 — a generic
exception, not a typed per-kind result. -/
theorem C3_errors_wrapped {H D I M : Type} (S : Sphinx H D I M) (m : Mixnet)
    (shuffled : List Nat) (message dest : Option String) (fuel : Nat) (e : PyExc)
    (hf : send_message S m shuffled message dest fuel = some (.error e)) :
    ∃ s, e = PyExc.exception ("Error sending message: " ++ s) := by
  unfold send_message at hf
  cases hsend : send_try S m shuffled message dest fuel with
  | none => rw [hsend] at hf; cases hf
  | some r =>
    cases r with
    | ok v => rw [hsend] at hf; simp at hf
    | error e2 =>
      rw [hsend] at hf
      simp [sendWrap] at hf
      exact ⟨excMsg e2, hf.symm⟩

/-- Claim C3 (witness for the amended theorem): applying it to the concrete
failing send with a `None` message. -/
theorem C3_errors_wrapped_witness :
    ∃ s, PyExc.exception "Error sending message: NoneType object has no attribute encode"
      = PyExc.exception ("Error sending message: " ++ s) :=
  C3_errors_wrapped symS (Mixnet_new id id) [0, 1, 2, 3, 4, 5, 6, 7, 8, 9]
    none (some "destination_node") 3
    (.exception "Error sending message: NoneType object has no attribute encode") rfl

/-- Claim C7 (counterexample): requesting the fixed path length 5 against a
registry of only 3 nodes does not fail with `InsufficientNodesError` — no such
error exists anywhere in the code. The selection silently yields the 3 available
ids and, with primitives satisfying the round-trip contract, the send succeeds
end to end. -/
theorem C7_short_registry_counterexample :
    send_message symS (initialize_nodes 3 id id) [0, 1, 2]
        (some "hello") (some "destination_node") 10
      = some (.ok ⟨"destination_node", "hello"⟩) := by
  rfl

/-- Claim C7 (amended): when the requested path length 5 exceeds the registry
size, route selection silently returns all of the registry's identifiers (fewer
than requested) and raises nothing. -/
theorem C7_silent_truncation (n : Nat) (g ex : Nat → Nat) (shuffled : List Nat)
    (hperm : shuffled.Perm (pkiPub_keys (initialize_nodes n g ex)))
    (hlt : n < 5) :
    rand_subset shuffled 5 = shuffled ∧ (rand_subset shuffled 5).length = n := by
  have hlen : shuffled.length = n := by
    rw [hperm.length_eq, pkiPub_keys_of_registry, List.length_range]
  have hall : rand_subset shuffled 5 = shuffled :=
    List.take_of_length_le (by omega)
  exact ⟨hall, by rw [hall, hlen]⟩

/-- Claim C7 (witness for the amended theorem): the three-node registry. -/
theorem C7_silent_truncation_witness :
    rand_subset [2, 0, 1] 5 = [2, 0, 1] ∧ (rand_subset [2, 0, 1] 5).length = 3 :=
  C7_silent_truncation 3 id id [2, 0, 1]
    (by rw [pkiPub_keys_of_registry]; decide) (by decide)

/-- Claim C1: with the default ten-node registry and the fixed path length 5,
sending `"hello"` to `"destination_node"` returns the session outcome whose
reported destination label is `"destination_node"` and whose decrypted message is
`"hello"`, under the round-trip contract of the primitives: the constructed
packet peels along the selected route (`Peels`) and construction succeeds on the
selected route's public keys. -/
theorem C1_send_delivers {H D I M : Type} (S : Sphinx H D I M) (g ex : Nat → Nat)
    (shuffled : List Nat) (n0 : Nat) (rest : List Nat) (h0 : H) (d0 : D) (fuel : Nat)
    (hperm : shuffled.Perm (pkiPub_keys (Mixnet_new g ex)))
    (hroute : rand_subset shuffled 5 = n0 :: rest)
    (hcons : S.create_forward_message ((n0 :: rest).map Nenc)
        ((n0 :: rest).map (fun i => ex (g i))) "destination_node" "hello" = .ok (h0, d0))
    (hpeels : Peels S (Mixnet_new g ex).pkiPriv (some (g n0)) rest h0 d0
        "destination_node" "hello")
    (hfuel : rest.length + 1 ≤ fuel) :
    send_message S (Mixnet_new g ex) shuffled (some "hello") (some "destination_node") fuel
      = some (.ok ⟨"destination_node", "hello"⟩) := by
  have hmem : ∀ i ∈ n0 :: rest, i < 10 := by
    intro i hi
    have h1 : i ∈ rand_subset shuffled 5 := hroute ▸ hi
    have h2 : i ∈ shuffled := List.take_subset 5 shuffled h1
    have h3 : i ∈ pkiPub_keys (Mixnet_new g ex) := hperm.mem_iff.mp h2
    simp only [Mixnet_new, Mixnet_default_num_nodes] at h3
    rw [pkiPub_keys_of_registry] at h3
    exact List.mem_range.mp h3
  have hkeys : keys_of (Mixnet_new g ex).pkiPub (n0 :: rest)
      = .ok ((n0 :: rest).map (fun i => ex (g i))) :=
    keys_of_initialize 10 g ex (n0 :: rest) hmem
  have hx : dict_get (Mixnet_new g ex).pkiPriv n0 = .ok ⟨n0, some (g n0), ex (g n0)⟩ := by
    simp only [Mixnet_new, Mixnet_default_num_nodes]
    rw [dict_get_initialize_priv]
    simp [hmem n0 (by simp)]
  have hloop := process_loop_peels hpeels fuel hfuel
  simp only [List.map_cons] at hcons
  simp [send_message, send_try, sphinx_inputs, hroute, hkeys, encode, hcons,
    process_message, process_try, list_head, hx, hloop]

/-- Claim C1 (witness): the symbolic round-trip primitives over the ten-node
registry with the identity shuffle select the route `[0, 1, 2, 3, 4]` and
deliver `"hello"` to `"destination_node"`. -/
theorem C1_send_delivers_witness :
    send_message symS (Mixnet_new id id) [0, 1, 2, 3, 4, 5, 6, 7, 8, 9]
        (some "hello") (some "destination_node") 5
      = some (.ok ⟨"destination_node", "hello"⟩) :=
  C1_send_delivers symS id id [0, 1, 2, 3, 4, 5, 6, 7, 8, 9] 0 [1, 2, 3, 4]
    [1, 2, 3, 4] ("destination_node", "hello") 5
    (by have h : pkiPub_keys (Mixnet_new id id) = [0, 1, 2, 3, 4, 5, 6, 7, 8, 9] := rfl
        rw [h])
    rfl rfl
    (Peels.step rfl rfl rfl (Peels.step rfl rfl rfl (Peels.step rfl rfl rfl
      (Peels.step rfl rfl rfl (Peels.deliver rfl rfl rfl)))))
    (by decide)

/-- Claim C5: every entry of the public registry carries no private key (its
private-key field is `None`), and the route-selection and packet-construction
stage of a send — the identifier list handed to selection and the whole
`sphinx_inputs` of construction — is a function of the public registry alone:
two mixnets agreeing on `pkiPub` produce identical selection domains and
identical construction inputs, whatever their private-key stores hold. -/
theorem C5_public_registry_secrecy (nn : Nat) (g ex : Nat → Nat) (k : Nat)
    (entry : PkiEntry) (m1 m2 : Mixnet) (shuffled : List Nat)
    (message dest : Option String)
    (hget : dict_get (initialize_nodes nn g ex).pkiPub k = .ok entry)
    (hpub : m1.pkiPub = m2.pkiPub) :
    entry.x = none
    ∧ pkiPub_keys m1 = pkiPub_keys m2
    ∧ sphinx_inputs m1 shuffled message dest = sphinx_inputs m2 shuffled message dest := by
  refine ⟨?_, ?_, ?_⟩
  · rw [dict_get_initialize_pub] at hget
    by_cases hk : k < nn
    · simp only [hk, if_true] at hget
      cases hget
      rfl
    · simp [hk] at hget
  · unfold pkiPub_keys
    rw [hpub]
  · unfold sphinx_inputs
    rw [hpub]

/-- Claim C5 (witness): a two-node registry, and a second mixnet with the same
public registry but an emptied private store. -/
theorem C5_public_registry_secrecy_witness :
    (⟨0, none, 0⟩ : PkiEntry).x = none
    ∧ pkiPub_keys (Mixnet_new id id) = pkiPub_keys ⟨[], (Mixnet_new id id).pkiPub⟩
    ∧ sphinx_inputs (Mixnet_new id id) [1, 0] (some "hello") (some "destination_node")
        = sphinx_inputs ⟨[], (Mixnet_new id id).pkiPub⟩ [1, 0]
            (some "hello") (some "destination_node") :=
  C5_public_registry_secrecy 2 id id 0 ⟨0, none, 0⟩ (Mixnet_new id id)
    ⟨[], (Mixnet_new id id).pkiPub⟩ [1, 0] (some "hello") (some "destination_node")
    rfl rfl

/-- Claim C6: for a registry of size at least 5, route selection returns exactly
5 identifiers, pairwise distinct, each drawn from the registry's identifier
set. -/
theorem C6_route_selection (n : Nat) (g ex : Nat → Nat) (shuffled : List Nat) (x : Nat)
    (hn : 5 ≤ n)
    (hperm : shuffled.Perm (pkiPub_keys (initialize_nodes n g ex)))
    (hx : x ∈ rand_subset shuffled 5) :
    (rand_subset shuffled 5).length = 5
    ∧ (rand_subset shuffled 5).Nodup
    ∧ x ∈ pkiPub_keys (initialize_nodes n g ex) := by
  have hkeys : pkiPub_keys (initialize_nodes n g ex) = List.range n :=
    pkiPub_keys_of_registry n g ex
  have hlen : shuffled.length = n := by
    rw [hperm.length_eq, hkeys, List.length_range]
  have hnd : shuffled.Nodup := hperm.symm.nodup (by rw [hkeys]; exact List.nodup_range n)
  refine ⟨?_, ?_, ?_⟩
  · show (shuffled.take 5).length = 5
    rw [List.length_take, hlen]
    omega
  · exact hnd.sublist (List.take_sublist 5 shuffled)
  · exact hperm.mem_iff.mp (List.take_subset 5 shuffled hx)

/-- Claim C6 (witness): a ten-node registry with a concrete shuffle; the id 7
heads the selected route. -/
theorem C6_route_selection_witness :
    (rand_subset [7, 3, 9, 0, 4, 1, 2, 5, 6, 8] 5).length = 5
    ∧ (rand_subset [7, 3, 9, 0, 4, 1, 2, 5, 6, 8] 5).Nodup
    ∧ 7 ∈ pkiPub_keys (initialize_nodes 10 id id) :=
  C6_route_selection 10 id id [7, 3, 9, 0, 4, 1, 2, 5, 6, 8] 7 (by decide)
    (by rw [pkiPub_keys_of_registry]; decide) (by decide)

/-- Claim C8 (counterexample): configuring the core's only exposed knob — the
node count — to 8 leaves the selection count at the literal 5 of line 75: the
path length does not follow any caller-supplied configuration, so it is not
externally configurable. -/
theorem C8_path_length_counterexample :
    [0, 1, 2, 3, 4, 5, 6, 7].Perm (pkiPub_keys (initialize_nodes 8 id id))
    ∧ (rand_subset [0, 1, 2, 3, 4, 5, 6, 7] 5).length = 5
    ∧ (5 : Nat) ≠ 8 := by
  refine ⟨?_, by rfl, by decide⟩
  have h : pkiPub_keys (initialize_nodes 8 id id) = [0, 1, 2, 3, 4, 5, 6, 7] := rfl
  rw [h]

/-- Claim C8 (amended): the node count is a constructor parameter defaulting to
10 and the registry honours whatever count the caller configures; the path
length, by contrast, is the hardcoded literal 5 of `send_message` — the selected
route has length 5 for every registry large enough, whatever the configured node
count and whatever the caller passes. -/
theorem C8_node_count_configurable_path_length_fixed (g ex g2 ex2 : Nat → Nat)
    (n nconf : Nat) (shuffled : List Nat)
    (hperm : shuffled.Perm (pkiPub_keys (initialize_nodes n g2 ex2)))
    (hn : 5 ≤ n) :
    (pkiPub_keys (initialize_nodes Mixnet_default_num_nodes g ex)).length
        = Mixnet_default_num_nodes
    ∧ (pkiPub_keys (initialize_nodes nconf g ex)).length = nconf
    ∧ (rand_subset shuffled 5).length = 5 := by
  have hlen : shuffled.length = n := by
    rw [hperm.length_eq, pkiPub_keys_of_registry, List.length_range]
  refine ⟨?_, ?_, ?_⟩
  · rw [pkiPub_keys_of_registry, List.length_range]
  · rw [pkiPub_keys_of_registry, List.length_range]
  · show (shuffled.take 5).length = 5
    rw [List.length_take, hlen]
    omega

/-- Claim C8 (witness for the amended theorem): node count configured to 8,
identity shuffle. -/
theorem C8_node_count_configurable_path_length_fixed_witness :
    (pkiPub_keys (initialize_nodes Mixnet_default_num_nodes id id)).length
        = Mixnet_default_num_nodes
    ∧ (pkiPub_keys (initialize_nodes 8 id id)).length = 8
    ∧ (rand_subset [0, 1, 2, 3, 4, 5, 6, 7] 5).length = 5 :=
  C8_node_count_configurable_path_length_fixed id id id id 8 8
    [0, 1, 2, 3, 4, 5, 6, 7]
    (by have h : pkiPub_keys (initialize_nodes 8 id id) = [0, 1, 2, 3, 4, 5, 6, 7] := rfl
        rw [h])
    (by decide)

/-- Claim C9: the `/mix` handler does not answer every request with HTTP 200. On
the failure path its `except` clause builds `JSONResponse(\x7b"data": e\x7d)`
with the raw exception object, whose JSON rendering raises `TypeError`, so the
handler itself raises and the framework answers 500 — here for a request whose
JSON body lacks a `message` field — while a successful request is answered 200
with the recovered plaintext in the body. -/
theorem C9_error_response_500 :
    serve (mix_incoming_messages symS id id [0, 1, 2, 3, 4, 5, 6, 7, 8, 9]
        (.ok []) 6)
      = some ⟨500, "Internal Server Error"⟩
    ∧ serve (mix_incoming_messages symS id id [0, 1, 2, 3, 4, 5, 6, 7, 8, 9]
        (.ok [("message", some "hello")]) 6)
      = some ⟨200, "\x7b\"data\": \"hello\"\x7d"⟩ := by
  constructor <;> rfl

/-- Claim C10: each `/mix` request constructs its own `Mixnet()` from its own
key randomness: the registry the handler builds has exactly the default ten
entries, node `i`'s private entry is freshly derived from this request's draw
`g1 i`, and two requests whose draws differ at a node hold different private
entries for it — node keys are never shared between requests. (That the handler
touches no module-level state is structural in the embedding: it is a function
of its per-request arguments only.) -/
theorem C10_fresh_registry_per_request (g1 g2 ex : Nat → Nat) (i : Nat)
    (hi : i < 10) (hg : g1 i ≠ g2 i) :
    (pkiPub_keys (Mixnet_new g1 ex)).length = 10
    ∧ dict_get (Mixnet_new g1 ex).pkiPriv i = .ok ⟨i, some (g1 i), ex (g1 i)⟩
    ∧ dict_get (Mixnet_new g1 ex).pkiPriv i ≠ dict_get (Mixnet_new g2 ex).pkiPriv i := by
  have h1 : dict_get (Mixnet_new g1 ex).pkiPriv i = .ok ⟨i, some (g1 i), ex (g1 i)⟩ := by
    simp only [Mixnet_new, Mixnet_default_num_nodes]
    rw [dict_get_initialize_priv]
    simp [hi]
  have h2 : dict_get (Mixnet_new g2 ex).pkiPriv i = .ok ⟨i, some (g2 i), ex (g2 i)⟩ := by
    simp only [Mixnet_new, Mixnet_default_num_nodes]
    rw [dict_get_initialize_priv]
    simp [hi]
  refine ⟨?_, h1, ?_⟩
  · simp only [Mixnet_new, Mixnet_default_num_nodes]
    rw [pkiPub_keys_of_registry, List.length_range]
  · rw [h1, h2]
    intro hco
    apply hg
    have := (PkiEntry.mk.injEq _ _ _ _ _ _).mp (Except.ok.inj hco)
    exact Option.some.inj this.2.1

/-- Claim C10 (witness): two requests whose first secret draws are 0 and 1. -/
theorem C10_fresh_registry_per_request_witness :
    (pkiPub_keys (Mixnet_new id id)).length = 10
    ∧ dict_get (Mixnet_new id id).pkiPriv 0 = .ok ⟨0, some 0, 0⟩
    ∧ dict_get (Mixnet_new id id).pkiPriv 0
        ≠ dict_get (Mixnet_new (fun n => n + 1) id).pkiPriv 0 :=
  C10_fresh_registry_per_request id (fun n => n + 1) id 0 (by decide) (by decide)

end Pgmix
